import Mathlib

/-!
# Credential and token lifecycle of student-connect-hub

A shallow embedding of the authentication core of the repository:
the auth controller (`src/backend/src/controllers/authController.ts`),
the auth middleware (`src/backend/src/middlewares/auth.ts`),
the JWT helpers (`src/backend/src/utils/jwt.ts`),
the validation middleware (`src/backend/src/middlewares/validation.ts`)
and the profile controller (`src/backend/src/controllers/userController.ts`).

The Mongoose `User` model file (`src/backend/src/models/User.ts`) is not
among the sources; the behaviour it owns (bcrypt hashing of the password
in a pre-save hook, case-insensitive email lookup) is modelled from the
spec and marked as such on each definition.

Time is a natural number of milliseconds (the JavaScript `Date.now()`
clock).  Random values (`crypto.randomBytes`) are passed in as explicit
arguments, making every operation a deterministic function of its inputs.
-/

namespace StudentConnectHub

/-- A stored user document, as the auth controller reads and writes it.
`passwordResetToken` holds the sha256 digest of the raw reset token
(never the raw token itself); `passwordResetExpires` is a millisecond
timestamp.  `emailVerificationToken` holds the raw verification token. -/
structure UserRecord where
  id : Nat
  name : String
  email : String
  passwordHash : String
  role : String
  bio : String
  isEmailVerified : Bool
  emailVerificationToken : Option String
  passwordResetToken : Option String
  passwordResetExpires : Option Nat
  createdAt : Nat
  deriving DecidableEq, Repr

/-- The user collection, in insertion order. -/
abbrev Store := List UserRecord

/-- Modelled from the spec: PasswordHasher.hash, the bcrypt pre-save hook
of the missing `src/backend/src/models/User.ts`.  A deterministic one-way
transform is modelled as an injective tagging of the plaintext. -/
def hashPassword (plain : String) : String := "bcrypt$" ++ plain

/-- Modelled from the spec: PasswordHasher.verify / `user.comparePassword`
of the missing `User` model: true exactly when the candidate hashes to the
stored hash. -/
def comparePassword (candidate stored : String) : Bool :=
  hashPassword candidate == stored

/-- `crypto.createHash("sha256").update(raw).digest("hex")` as used by
`forgotPassword` and `resetPassword`: a deterministic one-way digest,
modelled as an injective tagging of the raw token. -/
def sha256Hex (raw : String) : String := "sha256$" ++ raw

/-- JavaScript `String.prototype.trim` / the `.trim()` sanitizer of
express-validator: strip leading and trailing whitespace. -/
def trimModel (s : String) : String :=
  ⟨((s.data.dropWhile Char.isWhitespace).reverse.dropWhile
      Char.isWhitespace).reverse⟩

/-- ASCII lower-casing, the `toLowerCase` the email normalisation
applies. -/
def toLowerModel (s : String) : String := ⟨s.data.map Char.toLower⟩

/-- Modelled from the spec: UserStore lookups by email are
case-insensitive (the email normalisation lives in the missing `User`
model schema and the `normalizeEmail` sanitizer of express-validator). -/
def emailMatches (stored queried : String) : Bool :=
  toLowerModel stored == toLowerModel queried

/-- `User.findOne({ email })`. -/
def findByEmail (store : Store) (email : String) : Option UserRecord :=
  store.find? (fun u => emailMatches u.email email)

/-- `User.findById(id)`. -/
def findById (store : Store) (id : Nat) : Option UserRecord :=
  store.find? (fun u => u.id == id)

/-- `user.save()` / `findByIdAndUpdate`: replace the document with the
given id, leaving every other document untouched. -/
def storeUpdate (store : Store) (id : Nat) (u : UserRecord) : Store :=
  store.map (fun v => if v.id == id then u else v)

/-! ## Session tokens (`src/backend/src/utils/jwt.ts`) -/

/-- A JWT as the middleware sees it: either a well-formed signed token
carrying a user id, an expiry timestamp and a signature, or an arbitrary
malformed string. -/
inductive SessionToken where
  | signed (userId : Nat) (exp : Nat) (sig : String)
  | malformed (raw : String)
  deriving DecidableEq, Repr

/-- The HMAC the `jsonwebtoken` library computes over the payload with
the process-wide secret, modelled as an injective encoding. -/
def jwtSignature (secret : String) (userId exp : Nat) : String :=
  secret ++ "#" ++ toString userId ++ "#" ++ toString exp

/-- 24 hours in milliseconds: the `expiresIn: "24h"` option of
`generateToken`. -/
def dayMs : Nat := 24 * 60 * 60 * 1000

/-- `generateToken(userId)`: throws (modelled as `Except.error`) when
`process.env.JWT_SECRET` is absent, otherwise signs `{ userId }` with a
24-hour expiry. -/
def generateToken (secret : Option String) (userId : Nat) (now : Nat) :
    Except String SessionToken :=
  match secret with
  | none => Except.error "JWT_SECRET is not defined in environment variables"
  | some s =>
      Except.ok (SessionToken.signed userId (now + dayMs)
        (jwtSignature s userId (now + dayMs)))

/-- The ways `verifyToken` can fail: the `JsonWebTokenError` /
`TokenExpiredError` exceptions of `jwt.verify`, and the plain `Error`
thrown when `JWT_SECRET` is absent from the environment. -/
inductive VerifyError where
  | invalidToken
  | expiredToken
  | secretMissing
  deriving DecidableEq, Repr

/-- `verifyToken(token)`: throws a plain `Error` when the secret is
absent; otherwise `jwt.verify` rejects malformed tokens and bad
signatures with `JsonWebTokenError` (`invalidToken`) and tokens whose
expiry has passed (`exp ≤ now`) with `TokenExpiredError`
(`expiredToken`); on success it yields the embedded user id. -/
def verifyToken (secret : Option String) (tok : SessionToken) (now : Nat) :
    Except VerifyError Nat :=
  match secret with
  | none => Except.error VerifyError.secretMissing
  | some s =>
      match tok with
      | SessionToken.malformed _ => Except.error VerifyError.invalidToken
      | SessionToken.signed uid exp sig =>
          if sig ≠ jwtSignature s uid exp then Except.error VerifyError.invalidToken
          else if exp ≤ now then Except.error VerifyError.expiredToken
          else Except.ok uid

/-- `src/backend/src/server.ts`: environment configuration the startup
code could inspect. -/
structure Env where
  jwtSecret : Option String
  mongoUri : Option String
  deriving DecidableEq, Repr

/-- `startServer` in `src/backend/src/server.ts` starts listening
immediately, attempts the database connection in the background and
swallows its failure; it reads no `JWT_SECRET`, so startup succeeds for
every environment, the secret included. -/
def startServerSucceeds (_env : Env) : Bool := true

/-! ## HTTP responses

A response is its status code together with the JSON body the controller
serialises.  Two responses are byte-identical on the wire exactly when
they are equal here, the serialisation being deterministic. -/

/-- The `user` object the auth controllers serialise on success
(`id`, `name`, `email`, `role`, `bio`, derived `avatar`,
`isEmailVerified`, `createdAt`). -/
structure PublicUser where
  id : Nat
  name : String
  email : String
  role : String
  bio : String
  avatar : String
  isEmailVerified : Bool
  createdAt : Nat
  deriving DecidableEq, Repr

/-- Projection of a stored document to the serialised `user` object. -/
def publicUser (u : UserRecord) : PublicUser :=
  { id := u.id, name := u.name, email := u.email, role := u.role
    bio := u.bio
    avatar := "https://api.dicebear.com/7.x/avataaars/svg?seed=" ++ u.name
    isEmailVerified := u.isEmailVerified, createdAt := u.createdAt }

/-- A controller response: `failure status error` is
`{ success: false, error }`, `authSuccess status token user` is
`{ success: true, token, user }`, `messageSuccess status message` is
`{ success: true, message }`. -/
inductive ApiResponse where
  | failure (status : Nat) (error : String)
  | authSuccess (status : Nat) (token : SessionToken) (user : PublicUser)
  | messageSuccess (status : Nat) (message : String)
  deriving DecidableEq, Repr

/-! ## Validation middleware (`src/backend/src/middlewares/validation.ts`)

Only the rules on the register body are modelled (the body shape is
fixed to the four allowed fields, so `rejectUnknownFields` is identity);
the `isEmail` format check and `normalizeEmail` are library functions
modelled only as trimming (format) and lower-casing (normalisation). -/

/-- The per-character escape underlying `sanitizeHtml` of the
validation middleware (its five sequential global replaces, the
ampersand first, amount to escaping each source character once). -/
def escapeChar (c : Char) : List Char :=
  if c = '&' then "&amp;".data
  else if c = '<' then "&lt;".data
  else if c = '>' then "&gt;".data
  else if c = '"' then "&quot;".data
  else if c = '\x27' then "&#x27;".data
  else [c]

/-- `sanitizeHtml` of the validation middleware: escape the five HTML
entities. -/
def sanitizeHtml (v : String) : String :=
  ⟨v.data.foldr (fun c acc => escapeChar c ++ acc) []⟩

/-- The messages `registerValidation` collects for a register body, in
chain order; `handleValidationErrors` rejects when this is nonempty. -/
def registerValidationErrors (name email password : String)
    (role : Option String) : List String :=
  (if trimModel name = "" then ["Name is required"] else []) ++
  (if (trimModel name).length > 50 then ["Name cannot exceed 50 characters"]
   else []) ++
  (if trimModel email = "" then ["Email is required"] else []) ++
  (if password = "" then ["Password is required"] else []) ++
  (if password.length < 6 ∨ password.length > 128 then
      ["Password must be between 6 and 128 characters"] else []) ++
  (match role with
   | none => []
   | some r =>
       if r = "student" ∨ r = "founder" then []
       else ["Role must be student or founder"])

/-! ## Auth controller (`src/backend/src/controllers/authController.ts`) -/

/-- `role: role || "student"` — JavaScript falsiness of the empty
string. -/
def roleOrDefault (role : Option String) : String :=
  match role with
  | none => "student"
  | some r => if r = "" then "student" else r

/-- The `register` handler, after validation.  `verifTok` stands for the
`crypto.randomBytes(32).toString("hex")` verification token and `nextId`
for the object id the store assigns.  A duplicate email is rejected with
400 before any document is created; otherwise the document is created
(the password hashed by the model pre-save hook) and a session token
issued — should `generateToken` throw for a missing secret, the error
handler answers after the document was already created. -/
def register (store : Store) (nextId : Nat) (verifTok : String)
    (secret : Option String) (now : Nat)
    (name email password : String) (role : Option String) :
    ApiResponse × Store :=
  match findByEmail store email with
  | some _ => (ApiResponse.failure 400 "Email already registered", store)
  | none =>
      let newUser : UserRecord :=
        { id := nextId, name := name, email := email
          passwordHash := hashPassword password
          role := roleOrDefault role, bio := ""
          isEmailVerified := false
          emailVerificationToken := some verifTok
          passwordResetToken := none, passwordResetExpires := none
          createdAt := now }
      match generateToken secret nextId now with
      | Except.error _ =>
          (ApiResponse.failure 500 "Server Error", store ++ [newUser])
      | Except.ok tok =>
          (ApiResponse.authSuccess 201 tok (publicUser newUser),
            store ++ [newUser])

/-- The register route: `registerValidation` then `register`.  The
sanitizers of the chain mutate the body, so the handler sees the trimmed,
HTML-escaped name and the trimmed email. -/
def registerEndpoint (store : Store) (nextId : Nat) (verifTok : String)
    (secret : Option String) (now : Nat)
    (name email password : String) (role : Option String) :
    ApiResponse × Store :=
  match registerValidationErrors name email password role with
  | [] => register store nextId verifTok secret now
      (sanitizeHtml (trimModel name)) (trimModel email) password role
  | msgs =>
      (ApiResponse.failure 400 (String.intercalate ", " msgs), store)

/-- The `login` handler: empty credentials are answered 400; an unknown
email and a wrong password are answered with the one 401 response
`Invalid email or password`; success issues a fresh session token.  The
store is never modified. -/
def login (store : Store) (secret : Option String) (now : Nat)
    (email password : String) : ApiResponse :=
  if email = "" ∨ password = "" then
    ApiResponse.failure 400 "Please provide email and password"
  else
    match findByEmail store email with
    | none => ApiResponse.failure 401 "Invalid email or password"
    | some u =>
        if ¬ comparePassword password u.passwordHash then
          ApiResponse.failure 401 "Invalid email or password"
        else
          match generateToken secret u.id now with
          | Except.error _ => ApiResponse.failure 500 "Server Error"
          | Except.ok tok => ApiResponse.authSuccess 200 tok (publicUser u)

/-- The generic message `forgotPassword` always answers with. -/
def forgotMessage : String :=
  "If an account with that email exists, a password reset link has been sent."

/-- The `forgotPassword` handler.  `rawToken` stands for the
`crypto.randomBytes(32).toString("hex")` reset token.  An unknown email
is answered with the generic 200 message; a known email stores the
sha256 digest of the raw token and an expiry one hour ahead, then
answers with the very same 200 message. -/
def forgotPassword (store : Store) (rawToken : String) (now : Nat)
    (email : String) : ApiResponse × Store :=
  match findByEmail store email with
  | none => (ApiResponse.messageSuccess 200 forgotMessage, store)
  | some u =>
      let u' : UserRecord :=
        { u with passwordResetToken := some (sha256Hex rawToken)
                 passwordResetExpires := some (now + 60 * 60 * 1000) }
      (ApiResponse.messageSuccess 200 forgotMessage, storeUpdate store u.id u')

/-- The query filter of `resetPassword`:
`{ passwordResetToken: hashedToken, passwordResetExpires: { $gt: Date.now() } }` —
the digest matches and the expiry is strictly in the future (a document
without the field never satisfies `$gt`). -/
def resetMatches (hashedToken : String) (now : Nat) (u : UserRecord) : Bool :=
  u.passwordResetToken == some hashedToken &&
    (match u.passwordResetExpires with
     | some e => now < e
     | none => false)

/-- The `resetPassword` handler: hash the presented raw token, find a
document whose stored digest equals it with an unexpired expiry; no
match is answered 400 `Invalid or expired reset token`; a match rewrites
the password hash and clears both reset fields. -/
def resetPassword (store : Store) (now : Nat)
    (rawToken newPassword : String) : ApiResponse × Store :=
  let hashedToken := sha256Hex rawToken
  match store.find? (resetMatches hashedToken now) with
  | none => (ApiResponse.failure 400 "Invalid or expired reset token", store)
  | some u =>
      let u' : UserRecord :=
        { u with passwordHash := hashPassword newPassword
                 passwordResetToken := none
                 passwordResetExpires := none }
      (ApiResponse.messageSuccess 200
          "Password reset successful. You can now log in with your new password.",
        storeUpdate store u.id u')

/-- The `verifyEmail` handler: find the document whose stored
verification token equals the presented one; no match is answered 400;
a match sets `isEmailVerified` and clears the verification token. -/
def verifyEmail (store : Store) (rawToken : String) : ApiResponse × Store :=
  match store.find? (fun u => u.emailVerificationToken == some rawToken) with
  | none => (ApiResponse.failure 400 "Invalid verification token", store)
  | some u =>
      let u' : UserRecord :=
        { u with isEmailVerified := true, emailVerificationToken := none }
      (ApiResponse.messageSuccess 200 "Email verified successfully!",
        storeUpdate store u.id u')

/-! ## Auth middleware (`src/backend/src/middlewares/auth.ts`) -/

/-- Outcome of the `protect` middleware: a 401 denial, or the resolved
user attached to the request for downstream handlers. -/
inductive ProtectResult where
  | denied (status : Nat) (error : String)
  | authorized (user : UserRecord)
  deriving DecidableEq, Repr

/-- The `protect` middleware: no bearer token, 401
`Not authorized to access this route`; any exception of `verifyToken`
(invalid, expired, malformed, secret missing) is caught by the inner
handler and answered with the same 401 message; a verified token whose
user id no longer resolves is answered 401 `User not found`; otherwise
the user is attached. -/
def protect (store : Store) (secret : Option String) (now : Nat)
    (token : Option SessionToken) : ProtectResult :=
  match token with
  | none => ProtectResult.denied 401 "Not authorized to access this route"
  | some tok =>
      match verifyToken secret tok now with
      | Except.error _ =>
          ProtectResult.denied 401 "Not authorized to access this route"
      | Except.ok uid =>
          match findById store uid with
          | none => ProtectResult.denied 401 "User not found"
          | some u => ProtectResult.authorized u

/-! ## Profile controller (`src/backend/src/controllers/userController.ts`) -/

/-- The `updateMe` handler for an authenticated caller.  The controller
destructures only `name` and `bio` from the body (every other field of
any request body is ignored and `rejectUnknownFields` rejects it
upstream), trims whichever is present, and updates only the caller's own
document via `findByIdAndUpdate(req.user._id, updateData)`. -/
def updateMe (store : Store) (callerId : Nat)
    (name bio : Option String) : ApiResponse × Store :=
  let updated := fun (u : UserRecord) =>
    { u with
        name := match name with | some n => trimModel n | none => u.name
        bio := match bio with | some b => trimModel b | none => u.bio }
  match findById store callerId with
  | none => (ApiResponse.failure 404 "User not found", store)
  | some u =>
      (ApiResponse.messageSuccess 200 "profile updated",
        storeUpdate store callerId (updated u))

/-! ## Operation alphabet for reachable-state invariants -/

/-- The store-writing operations of the credential service; `login`,
`getMe` and `protect` never write.  Each constructor carries the
operation's inputs (randomness and clock included). -/
inductive Op where
  | register (nextId : Nat) (verifTok : String) (secret : Option String)
      (now : Nat) (name email password : String) (role : Option String)
  | forgot (rawToken : String) (now : Nat) (email : String)
  | reset (now : Nat) (rawToken newPassword : String)
  | verify (rawToken : String)
  | update (callerId : Nat) (name bio : Option String)

/-- The store after one operation (through the full route, validation
included where the route has it). -/
def applyOp (store : Store) : Op → Store
  | Op.register nextId verifTok secret now name email password role =>
      (registerEndpoint store nextId verifTok secret now name email password role).2
  | Op.forgot rawToken now email => (forgotPassword store rawToken now email).2
  | Op.reset now rawToken newPassword =>
      (resetPassword store now rawToken newPassword).2
  | Op.verify rawToken => (verifyEmail store rawToken).2
  | Op.update callerId name bio => (updateMe store callerId name bio).2

/-- The C8 invariant on one document: the reset digest and the reset
expiry are both set or both absent. -/
def resetPaired (u : UserRecord) : Prop :=
  u.passwordResetToken.isSome = u.passwordResetExpires.isSome

/-- The C8 invariant on the whole store. -/
def storeResetPaired (store : Store) : Prop :=
  ∀ u ∈ store, resetPaired u

/-- The messages `loginValidation` collects for a login body
(`email` trimmed nonempty, `password` nonempty; the `isEmail` format
check is a library function, modelled only as nonemptiness). -/
def loginValidationErrors (email password : String) : List String :=
  (if trimModel email = "" then ["Email is required"] else []) ++
  (if password = "" then ["Password is required"] else [])

/-- The login route: `loginValidation` then `login`; the `.trim()`
sanitizer of the chain mutates the body, so the handler sees the trimmed
email. -/
def loginEndpoint (store : Store) (secret : Option String) (now : Nat)
    (email password : String) : ApiResponse :=
  match loginValidationErrors email password with
  | [] => login store secret now (trimModel email) password
  | msgs => ApiResponse.failure 400 (String.intercalate ", " msgs)

/-- The fields of a document that `updateMe` must leave untouched
(everything except `name` and `bio`): id, email, password hash, role,
verification flag and token, reset digest and expiry, creation time. -/
def frameFields (u : UserRecord) :
    Nat × String × String × String × Bool × Option String ×
      Option String × Option Nat × Nat :=
  (u.id, u.email, u.passwordHash, u.role, u.isEmailVerified,
    u.emailVerificationToken, u.passwordResetToken,
    u.passwordResetExpires, u.createdAt)

/-- A sample stored account used to instantiate the theorems below. -/
def alice : UserRecord :=
  { id := 1, name := "Alice", email := "alice@example.com"
    passwordHash := hashPassword "Secret123", role := "student", bio := ""
    isEmailVerified := false, emailVerificationToken := some "vtok1"
    passwordResetToken := none, passwordResetExpires := none
    createdAt := 0 }

/-- The sample account with an outstanding, unexpired reset request:
digest of the raw token `rt`, expiring at millisecond 5000. -/
def aliceResetPending : UserRecord :=
  { alice with passwordResetToken := some (sha256Hex "rt")
               passwordResetExpires := some 5000 }

/-- The record a registration of Alice on the empty store creates
(id 1, verification token `vt`, at time 0). -/
def aliceRegistered : UserRecord :=
  { id := 1, name := "Alice", email := "alice@example.com"
    passwordHash := hashPassword "Secret123", role := "student", bio := ""
    isEmailVerified := false, emailVerificationToken := some "vt"
    passwordResetToken := none, passwordResetExpires := none
    createdAt := 0 }

/-! ## Helper lemmas -/

theorem mem_storeUpdate {store : Store} {i : Nat} {u v : UserRecord}
    (hv : v ∈ storeUpdate store i u) :
    v = u ∨ (v ∈ store ∧ v.id ≠ i) := by
  rcases List.mem_map.1 hv with ⟨w, hw, hweq⟩
  by_cases h : w.id = i
  · left
    rw [← hweq]
    simp [h]
  · right
    rw [← hweq]
    simp [h]
    exact hw

theorem find?_append_none {p : UserRecord → Bool} {l₁ l₂ : Store}
    (h : l₁.find? p = none) : (l₁ ++ l₂).find? p = l₂.find? p := by
  rw [List.find?_append, h, Option.none_or]

theorem resetPassword_of_find?_none {store : Store} {now : Nat}
    {rawToken p : String}
    (h : store.find? (resetMatches (sha256Hex rawToken) now) = none) :
    resetPassword store now rawToken p =
      (ApiResponse.failure 400 "Invalid or expired reset token", store) := by
  simp [resetPassword, h]

theorem resetMatches_token {d : String} {now : Nat} {u : UserRecord}
    (h : resetMatches d now u = true) : u.passwordResetToken = some d := by
  unfold resetMatches at h
  rw [Bool.and_eq_true] at h
  exact eq_of_beq h.1

/-! ## Claim theorems -/

/-- Claim C4: a Login with an email matching no record and a Login with
an existing email but a wrong password produce the same failure
response: identical payload (`{ success: false, error: "Invalid email
or password" }`) and the same 401 status, so the caller cannot tell "no
such user" from "wrong password". -/
theorem login_unknown_email_indistinguishable_from_wrong_password
    (store : Store) (secret : Option String) (now1 now2 : Nat)
    (email1 password1 email2 password2 : String) (u : UserRecord)
    (he1 : email1 ≠ "") (hp1 : password1 ≠ "")
    (he2 : email2 ≠ "") (hp2 : password2 ≠ "")
    (hno : findByEmail store email1 = none)
    (hsome : findByEmail store email2 = some u)
    (hwrong : comparePassword password2 u.passwordHash = false) :
    login store secret now1 email1 password1 =
        ApiResponse.failure 401 "Invalid email or password" ∧
    login store secret now2 email2 password2 =
        ApiResponse.failure 401 "Invalid email or password" := by
  constructor
  · simp [login, he1, hp1, hno]
  · simp [login, he2, hp2, hsome, hwrong]

/-- Witness for C4: on a store holding only `alice`, a login with an
unknown email and a login with alice's email but a wrong password
produce the identical 401 response. -/
theorem login_indistinguishable_witness :
    login [alice] (some "k") 0 "bob@example.com" "Whatever1" =
        ApiResponse.failure 401 "Invalid email or password" ∧
    login [alice] (some "k") 0 "alice@example.com" "WrongPass" =
        ApiResponse.failure 401 "Invalid email or password" :=
  login_unknown_email_indistinguishable_from_wrong_password
    [alice] (some "k") 0 0 "bob@example.com" "Whatever1"
    "alice@example.com" "WrongPass" alice
    (by decide) (by decide) (by decide) (by decide)
    (by decide) (by decide) (by decide)

/-- Claim C5: ForgotPassword answers with one fixed response — status
200 and the generic message — whether or not an account with the email
exists; and when one exists, the record with that account's id in the
resulting store carries the sha256 digest of the raw token and an expiry
exactly one hour (3600000 ms) ahead. -/
theorem forgotPassword_uniform_and_stores_digest
    (store : Store) (rawToken : String) (now : Nat) (email : String) :
    (forgotPassword store rawToken now email).1 =
        ApiResponse.messageSuccess 200 forgotMessage ∧
    (∀ u, findByEmail store email = some u →
       ∀ v ∈ (forgotPassword store rawToken now email).2, v.id = u.id →
         v.passwordResetToken = some (sha256Hex rawToken) ∧
         v.passwordResetExpires = some (now + 60 * 60 * 1000)) := by
  constructor
  · unfold forgotPassword
    cases h : findByEmail store email <;> simp
  · intro u hu v hv hvid
    have h2 : (forgotPassword store rawToken now email).2 =
        storeUpdate store u.id
          { u with passwordResetToken := some (sha256Hex rawToken)
                   passwordResetExpires := some (now + 60 * 60 * 1000) } := by
      simp [forgotPassword, hu]
    rw [h2] at hv
    rcases mem_storeUpdate hv with h | ⟨_, hne⟩
    · subst h
      exact ⟨rfl, rfl⟩
    · exact absurd hvid hne

/-- Witness for C5: ForgotPassword on alice's email answers the generic
200 message and stores the digest of `rt` with expiry 1000 + 3600000. -/
theorem forgotPassword_uniform_witness :
    (forgotPassword [alice] "rt" 1000 "alice@example.com").1 =
        ApiResponse.messageSuccess 200 forgotMessage ∧
    ∀ v ∈ (forgotPassword [alice] "rt" 1000 "alice@example.com").2,
      v.id = alice.id →
        v.passwordResetToken = some (sha256Hex "rt") ∧
        v.passwordResetExpires = some (1000 + 60 * 60 * 1000) :=
  ⟨(forgotPassword_uniform_and_stores_digest [alice] "rt" 1000
      "alice@example.com").1,
    (forgotPassword_uniform_and_stores_digest [alice] "rt" 1000
      "alice@example.com").2 alice (by decide)⟩

/-- Claim C2 (refuting theorem): on a protected route, a verified
session token whose embedded user id resolves to no record is answered
401 with body `User not found`, while a bad token is answered 401 with
body `Not authorized to access this route` — the two messages differ,
so the caller CAN distinguish "user no longer exists" from a bad token,
contradicting both the spec and the middleware's own comment that a
generic message prevents user enumeration. -/
theorem protect_user_not_found_is_distinguishable :
    protect [] (some "k") 0
        (some (SessionToken.signed 1 dayMs (jwtSignature "k" 1 dayMs))) =
      ProtectResult.denied 401 "User not found" ∧
    protect [] (some "k") 0 (some (SessionToken.malformed "x")) =
      ProtectResult.denied 401 "Not authorized to access this route" ∧
    "User not found" ≠ "Not authorized to access this route" :=
  ⟨by decide, by decide, by decide⟩

/-- Claim C9 (counterexample): the process starts successfully with no
signing key configured (startup inspects no `JWT_SECRET`), and a verify
call in that state fails with the missing-secret error, which is neither
`InvalidToken` nor `ExpiredToken` — so verification is not confined to
those two failures and the key's absence is not fatal at process
start. -/
theorem verify_secret_missing_counterexample :
    startServerSucceeds { jwtSecret := none, mongoUri := none } = true ∧
    verifyToken none (SessionToken.malformed "x") 0 =
      Except.error VerifyError.secretMissing ∧
    VerifyError.secretMissing ≠ VerifyError.invalidToken ∧
    VerifyError.secretMissing ≠ VerifyError.expiredToken :=
  ⟨rfl, rfl, by decide, by decide⟩

/-- Claim C9 (amended): provided the signing key is configured, verify
fails with `InvalidToken` on a malformed token or a wrong signature,
with `ExpiredToken` on a correctly signed token past its expiry, and
succeeds otherwise — never failing for any other reason; without the
key, the server still starts and every verify call fails with the
missing-configuration error at call time. -/
theorem verifyToken_failure_taxonomy (s : String) :
    (∀ raw now, verifyToken (some s) (SessionToken.malformed raw) now =
        Except.error VerifyError.invalidToken) ∧
    (∀ uid exp sig now, sig ≠ jwtSignature s uid exp →
        verifyToken (some s) (SessionToken.signed uid exp sig) now =
          Except.error VerifyError.invalidToken) ∧
    (∀ uid exp now, exp ≤ now →
        verifyToken (some s)
            (SessionToken.signed uid exp (jwtSignature s uid exp)) now =
          Except.error VerifyError.expiredToken) ∧
    (∀ uid exp now, now < exp →
        verifyToken (some s)
            (SessionToken.signed uid exp (jwtSignature s uid exp)) now =
          Except.ok uid) ∧
    (∀ tok now, verifyToken (some s) tok now ≠
        Except.error VerifyError.secretMissing) ∧
    (∀ env, startServerSucceeds env = true) ∧
    (∀ tok now, verifyToken none tok now =
        Except.error VerifyError.secretMissing) := by
  refine ⟨?_, ?_, ?_, ?_, ?_, ?_, ?_⟩
  · intro raw now
    rfl
  · intro uid exp sig now h
    simp [verifyToken, h]
  · intro uid exp now h
    simp [verifyToken, h]
  · intro uid exp now h
    simp [verifyToken, Nat.not_le_of_lt h]
  · intro tok now
    cases tok with
    | malformed raw => simp [verifyToken]
    | signed uid exp sig =>
        simp only [verifyToken]
        split
        · simp
        · split <;> simp
  · intro env
    rfl
  · intro tok now
    rfl

/-- Witness for the amended C9: concrete instances of each failure
class with the key `k` configured. -/
theorem verifyToken_failure_taxonomy_witness :
    verifyToken (some "k") (SessionToken.signed 1 7 "bad") 3 =
        Except.error VerifyError.invalidToken ∧
    verifyToken (some "k") (SessionToken.signed 1 7 (jwtSignature "k" 1 7)) 7 =
        Except.error VerifyError.expiredToken ∧
    verifyToken (some "k") (SessionToken.signed 1 7 (jwtSignature "k" 1 7)) 3 =
        Except.ok 1 :=
  ⟨(verifyToken_failure_taxonomy "k").2.1 1 7 "bad" 3 (by decide),
    (verifyToken_failure_taxonomy "k").2.2.1 1 7 7 (by decide),
    (verifyToken_failure_taxonomy "k").2.2.2.1 1 7 3 (by decide)⟩

/-- Claim C1: a successful ResetPassword overwrites the password hash
and clears both reset fields of the matched record (hypotheses: the call
matches record `u`, and `u` is the only record holding this digest —
tokens are 256-bit random); every later call with the same raw token
then fails 400 `Invalid or expired reset token` and leaves the store —
the first call's password included — untouched.  And whenever every
record holding the digest has an expiry not in the future, ResetPassword
fails with the same 400 error and changes no record. -/
theorem resetPassword_single_use_and_expiry :
    (∀ store now rawToken newPassword u,
       store.find? (resetMatches (sha256Hex rawToken) now) = some u →
       (∀ v ∈ store, v.passwordResetToken = some (sha256Hex rawToken) →
          v = u) →
       (resetPassword store now rawToken newPassword).1 =
           ApiResponse.messageSuccess 200
             "Password reset successful. You can now log in with your new password." ∧
       (∀ v ∈ (resetPassword store now rawToken newPassword).2,
          v.id = u.id →
            v.passwordHash = hashPassword newPassword ∧
            v.passwordResetToken = none ∧
            v.passwordResetExpires = none) ∧
       (∀ now2 p2,
          resetPassword (resetPassword store now rawToken newPassword).2
              now2 rawToken p2 =
            (ApiResponse.failure 400 "Invalid or expired reset token",
              (resetPassword store now rawToken newPassword).2))) ∧
    (∀ store now rawToken p,
       (∀ v ∈ store, v.passwordResetToken = some (sha256Hex rawToken) →
          ∀ e, v.passwordResetExpires = some e → e ≤ now) →
       resetPassword store now rawToken p =
         (ApiResponse.failure 400 "Invalid or expired reset token", store)) := by
  constructor
  · intro store now rawToken newPassword u hfind huniq
    have hstep : resetPassword store now rawToken newPassword =
        (ApiResponse.messageSuccess 200
            "Password reset successful. You can now log in with your new password.",
          storeUpdate store u.id
            { u with passwordHash := hashPassword newPassword
                     passwordResetToken := none
                     passwordResetExpires := none }) := by
      simp [resetPassword, hfind]
    refine ⟨by rw [hstep], ?_, ?_⟩
    · intro v hv hvid
      rw [hstep] at hv
      rcases mem_storeUpdate hv with h | ⟨_, hne⟩
      · subst h
        exact ⟨rfl, rfl, rfl⟩
      · exact absurd hvid hne
    · intro now2 p2
      have hnone : ((resetPassword store now rawToken newPassword).2).find?
          (resetMatches (sha256Hex rawToken) now2) = none := by
        rw [hstep]
        apply List.find?_eq_none.2
        intro v hv
        rcases mem_storeUpdate hv with h | ⟨hvs, hne⟩
        · subst h
          simp [resetMatches]
        · intro hmatch
          have htok := resetMatches_token hmatch
          exact hne (congrArg UserRecord.id (huniq v hvs htok))
      exact resetPassword_of_find?_none hnone
  · intro store now rawToken p hexp
    have hnone : store.find? (resetMatches (sha256Hex rawToken) now) = none := by
      apply List.find?_eq_none.2
      intro v hv hmatch
      have htok := resetMatches_token hmatch
      rw [resetMatches, Bool.and_eq_true] at hmatch
      have hfut := hmatch.2
      cases hve : v.passwordResetExpires with
      | none => rw [hve] at hfut; exact Bool.false_ne_true hfut
      | some e =>
          rw [hve] at hfut
          have h1 : now < e := of_decide_eq_true hfut
          have h2 := hexp v hv htok e hve
          omega
    simp [resetPassword, hnone]

/-- Witness for C1: alice with a pending reset (digest of `rt`, expiry
5000): reset at 1000 succeeds; a second use of `rt` at 2000 fails and
changes nothing; and on the untouched store a use of `rt` at 6000, past
expiry, fails and changes nothing. -/
theorem resetPassword_single_use_witness :
    (resetPassword [aliceResetPending] 1000 "rt" "NewSecret456").1 =
        ApiResponse.messageSuccess 200
          "Password reset successful. You can now log in with your new password." ∧
    resetPassword (resetPassword [aliceResetPending] 1000 "rt" "NewSecret456").2
        2000 "rt" "Another1" =
      (ApiResponse.failure 400 "Invalid or expired reset token",
        (resetPassword [aliceResetPending] 1000 "rt" "NewSecret456").2) ∧
    resetPassword [aliceResetPending] 6000 "rt" "NewSecret456" =
      (ApiResponse.failure 400 "Invalid or expired reset token",
        [aliceResetPending]) :=
  ⟨(resetPassword_single_use_and_expiry.1 [aliceResetPending] 1000 "rt"
      "NewSecret456" aliceResetPending (by decide) (by decide)).1,
    (resetPassword_single_use_and_expiry.1 [aliceResetPending] 1000 "rt"
      "NewSecret456" aliceResetPending (by decide) (by decide)).2.2 2000
      "Another1",
    resetPassword_single_use_and_expiry.2 [aliceResetPending] 6000 "rt"
      "NewSecret456"
      (by
        intro v hv htok e he
        simp only [List.mem_singleton] at hv
        subst hv
        simp only [aliceResetPending] at he
        simp at he
        omega)⟩

/-- Claim C7: a Register call that passes validation but whose email
already belongs to a stored record fails 400 `Email already registered`
and returns the store unchanged — no second record with that email, and
the existing record untouched. -/
theorem register_duplicate_email_rejected
    (store : Store) (nextId : Nat) (vt : String) (secret : Option String)
    (now : Nat) (name email password : String) (role : Option String)
    (u : UserRecord)
    (hval : registerValidationErrors name email password role = [])
    (hu : findByEmail store (trimModel email) = some u) :
    registerEndpoint store nextId vt secret now name email password role =
      (ApiResponse.failure 400 "Email already registered", store) := by
  simp [registerEndpoint, hval, register, hu]

/-- Witness for C7: registering a differently cased variant of alice's
email is rejected with 400 and the store is unchanged. -/
theorem register_duplicate_email_witness :
    registerEndpoint [alice] 2 "vt2" (some "k") 0 "Bob"
        "Alice@Example.com" "Password1" none =
      (ApiResponse.failure 400 "Email already registered", [alice]) :=
  register_duplicate_email_rejected [alice] 2 "vt2" (some "k") 0 "Bob"
    "Alice@Example.com" "Password1" none alice (by decide) (by decide)

/-- Claim C3: a registration request with requestedRole `admin` is
rejected by the validation middleware with a 400 failure before any
record is created (the store is returned unchanged), and a registration
request with no role creates its new record with role `student`. -/
theorem register_never_admin_default_student :
    (∀ store nextId vt secret now name email password,
       (registerEndpoint store nextId vt secret now name email password
           (some "admin")).2 = store ∧
       ∃ msg, (registerEndpoint store nextId vt secret now name email
           password (some "admin")).1 = ApiResponse.failure 400 msg) ∧
    (∀ store nextId vt secret now name email password,
       ∀ v ∈ (registerEndpoint store nextId vt secret now name email
           password none).2, v ∉ store → v.role = "student") := by
  constructor
  · intro store nextId vt secret now name email password
    cases h : registerValidationErrors name email password (some "admin") with
    | nil =>
        exfalso
        simp [registerValidationErrors] at h
    | cons a as =>
        simp [registerEndpoint, h]
  · intro store nextId vt secret now name email password v hv hvnot
    cases h : registerValidationErrors name email password none with
    | cons a as =>
        rw [registerEndpoint, h] at hv
        exact absurd hv hvnot
    | nil =>
        rw [registerEndpoint, h] at hv
        unfold register at hv
        cases hfe : findByEmail store (trimModel email) with
        | some w =>
            rw [hfe] at hv
            exact absurd hv hvnot
        | none =>
            rw [hfe] at hv
            cases hg : generateToken secret nextId now with
            | error e =>
                rw [hg] at hv
                simp only [List.mem_append, List.mem_singleton] at hv
                rcases hv with hv | hv
                · exact absurd hv hvnot
                · subst hv
                  rfl
            | ok tok =>
                rw [hg] at hv
                simp only [List.mem_append, List.mem_singleton] at hv
                rcases hv with hv | hv
                · exact absurd hv hvnot
                · subst hv
                  rfl

/-- Witness for C3: on the empty store, an admin registration is
rejected with the store unchanged, and a roleless registration creates
a `student` record. -/
theorem register_never_admin_witness :
    (registerEndpoint [] 1 "vt" (some "k") 0 "Bob" "bob@example.com"
        "Password1" (some "admin")).2 = [] ∧
    ∀ v ∈ (registerEndpoint [] 1 "vt" (some "k") 0 "Bob" "bob@example.com"
        "Password1" none).2, v ∉ ([] : Store) → v.role = "student" :=
  ⟨(register_never_admin_default_student.1 [] 1 "vt" (some "k") 0 "Bob"
      "bob@example.com" "Password1").1,
    fun v hv hvn => register_never_admin_default_student.2 [] 1 "vt"
      (some "k") 0 "Bob" "bob@example.com" "Password1" v hv hvn⟩

theorem storeResetPaired_storeUpdate {store : Store} {i : Nat}
    {u : UserRecord} (hs : storeResetPaired store) (hu : resetPaired u) :
    storeResetPaired (storeUpdate store i u) := by
  intro v hv
  rcases mem_storeUpdate hv with h | ⟨hvs, _⟩
  · subst h
    exact hu
  · exact hs v hvs

theorem storeResetPaired_append_singleton {store : Store} {u : UserRecord}
    (hs : storeResetPaired store) (hu : resetPaired u) :
    storeResetPaired (store ++ [u]) := by
  intro v hv
  rcases List.mem_append.1 hv with h | h
  · exact hs v h
  · rw [List.mem_singleton] at h
    subst h
    exact hu

theorem applyOp_preserves_resetPaired (store : Store) (op : Op)
    (hs : storeResetPaired store) : storeResetPaired (applyOp store op) := by
  cases op with
  | register nextId vt secret now name email password role =>
      show storeResetPaired (registerEndpoint store nextId vt secret now
        name email password role).2
      cases h : registerValidationErrors name email password role with
      | cons a as =>
          rw [registerEndpoint, h]
          exact hs
      | nil =>
          rw [registerEndpoint, h]
          unfold register
          cases hfe : findByEmail store (trimModel email) with
          | some w => exact hs
          | none =>
              cases hg : generateToken secret nextId now with
              | error e => exact storeResetPaired_append_singleton hs rfl
              | ok tok => exact storeResetPaired_append_singleton hs rfl
  | forgot rawToken now email =>
      show storeResetPaired (forgotPassword store rawToken now email).2
      unfold forgotPassword
      cases hfe : findByEmail store email with
      | none => exact hs
      | some u => exact storeResetPaired_storeUpdate hs rfl
  | reset now rawToken newPassword =>
      show storeResetPaired (resetPassword store now rawToken newPassword).2
      cases hfe : List.find? (resetMatches (sha256Hex rawToken) now) store with
      | none =>
          rw [resetPassword_of_find?_none hfe]
          exact hs
      | some u =>
          have hstep : (resetPassword store now rawToken newPassword).2 =
              storeUpdate store u.id
                { u with passwordHash := hashPassword newPassword
                         passwordResetToken := none
                         passwordResetExpires := none } := by
            simp [resetPassword, hfe]
          rw [hstep]
          exact storeResetPaired_storeUpdate hs rfl
  | verify rawToken =>
      show storeResetPaired (verifyEmail store rawToken).2
      unfold verifyEmail
      cases hfe : store.find?
          (fun u => u.emailVerificationToken == some rawToken) with
      | none => exact hs
      | some u =>
          exact storeResetPaired_storeUpdate hs
            (hs u (List.mem_of_find?_eq_some hfe))
  | update callerId name bio =>
      show storeResetPaired (updateMe store callerId name bio).2
      unfold updateMe
      cases hfe : findById store callerId with
      | none => exact hs
      | some u =>
          exact storeResetPaired_storeUpdate hs
            (hs u (List.mem_of_find?_eq_some hfe))

/-- Claim C8: in every store reachable by any sequence of operations
from one satisfying the pairing invariant (the empty store and every
freshly registered record satisfy it), each record's password-reset
digest and password-reset expiry are both set or both absent:
ForgotPassword sets both together, a successful ResetPassword clears
both together, and no other operation touches either field alone. -/
theorem reset_fields_both_or_neither (ops : List Op) (store : Store)
    (h : storeResetPaired store) :
    storeResetPaired (ops.foldl applyOp store) := by
  induction ops generalizing store with
  | nil => exact h
  | cons op ops ih => exact ih _ (applyOp_preserves_resetPaired store op h)

/-- Witness for C8: after a ForgotPassword then a successful
ResetPassword on alice, starting from the single-record store, the
pairing invariant holds. -/
theorem reset_fields_both_or_neither_witness :
    storeResetPaired
      ([Op.forgot "rt" 5 "alice@example.com",
        Op.reset 6 "rt" "NewSecret456"].foldl applyOp [alice]) :=
  reset_fields_both_or_neither
    [Op.forgot "rt" 5 "alice@example.com", Op.reset 6 "rt" "NewSecret456"]
    [alice]
    (by
      intro u hu
      rw [List.mem_singleton] at hu
      subst hu
      rfl)

/-- Claim C10: for any authenticated updateMe call with any request body
(the handler reads only `name` and `bio` from it), every field other
than `name` and `bio` of every record is unchanged — id, email,
password hash, role, verification flag and token, reset digest and
expiry, creation time — and every record other than the caller's is
unchanged entirely.  The hypothesis is the store's id-uniqueness, which
the underlying document store enforces. -/
theorem updateMe_frame (store : Store) (callerId : Nat)
    (name bio : Option String)
    (hids : ∀ v ∈ store, ∀ w ∈ store, v.id = w.id → v = w) :
    ((updateMe store callerId name bio).2).map frameFields =
        store.map frameFields ∧
    ∀ v ∈ (updateMe store callerId name bio).2, v.id ≠ callerId →
      v ∈ store := by
  cases hfe : findById store callerId with
  | none =>
      constructor
      · simp [updateMe, hfe]
      · intro v hv _
        simpa [updateMe, hfe] using hv
  | some u =>
      have humem : u ∈ store := List.mem_of_find?_eq_some hfe
      have huid : u.id = callerId := by
        have h := List.find?_some hfe
        simpa using h
      have hstep : (updateMe store callerId name bio).2 =
          storeUpdate store callerId
            { u with
                name := match name with | some n => trimModel n | none => u.name
                bio := match bio with | some b => trimModel b | none => u.bio } := by
        simp [updateMe, hfe]
      constructor
      · rw [hstep]
        unfold storeUpdate
        rw [List.map_map]
        apply List.map_congr_left
        intro w hw
        by_cases h : w.id = callerId
        · have hwu : w = u := hids w hw u humem (by rw [h, huid])
          subst hwu
          simp [h, frameFields]
        · simp [h, Function.comp]
      · intro v hv hvid
        rw [hstep] at hv
        rcases mem_storeUpdate hv with h | ⟨hvs, _⟩
        · subst h
          exact absurd huid hvid
        · exact hvs

/-- Witness for C10: updating alice's name and bio leaves all framed
fields of every record, and every other record, unchanged. -/
theorem updateMe_frame_witness :
    ((updateMe [alice] 1 (some " Alice B. ") (some "hi")).2).map frameFields =
        [alice].map frameFields ∧
    ∀ v ∈ (updateMe [alice] 1 (some " Alice B. ") (some "hi")).2,
      v.id ≠ 1 → v ∈ [alice] :=
  updateMe_frame [alice] 1 (some " Alice B. ") (some "hi") (by decide)

theorem registerValidation_nonempty_fields {name email password : String}
    {role : Option String}
    (hval : registerValidationErrors name email password role = []) :
    trimModel email ≠ "" ∧ password ≠ "" := by
  constructor
  · intro h
    rw [registerValidationErrors.eq_def] at hval
    simp [h] at hval
  · intro h
    rw [registerValidationErrors.eq_def] at hval
    simp [h] at hval

/-- Claim C6: for credentials accepted by the register validation, on a
store without that email and with a fresh id, Register succeeds (201
with a session token for the new id), Login with the same credentials
then succeeds (200 with a fresh session token for the same id), and the
protect middleware presented that login token within its 24-hour
validity resolves it to the very record Register created. -/
theorem register_login_identity_roundtrip
    (store : Store) (nextId : Nat) (vt s : String) (t0 t1 t2 : Nat)
    (name email password : String) (role : Option String)
    (hval : registerValidationErrors name email password role = [])
    (hfresh : findByEmail store (trimModel email) = none)
    (hid : ∀ v ∈ store, v.id ≠ nextId)
    (ht : t2 < t1 + dayMs) :
    ∀ u, (registerEndpoint store nextId vt (some s) t0 name email password
        role).2 = store ++ [u] →
      u.id = nextId ∧
      (registerEndpoint store nextId vt (some s) t0 name email password
          role).1 =
        ApiResponse.authSuccess 201
          (SessionToken.signed nextId (t0 + dayMs)
            (jwtSignature s nextId (t0 + dayMs))) (publicUser u) ∧
      loginEndpoint (store ++ [u]) (some s) t1 email password =
        ApiResponse.authSuccess 200
          (SessionToken.signed nextId (t1 + dayMs)
            (jwtSignature s nextId (t1 + dayMs))) (publicUser u) ∧
      protect (store ++ [u]) (some s) t2
          (some (SessionToken.signed nextId (t1 + dayMs)
            (jwtSignature s nextId (t1 + dayMs)))) =
        ProtectResult.authorized u := by
  have hem : trimModel email ≠ "" := (registerValidation_nonempty_fields hval).1
  have hpw : password ≠ "" := (registerValidation_nonempty_fields hval).2
  intro u hu
  have h2 : (registerEndpoint store nextId vt (some s) t0 name email password
      role).2 =
      store ++
        [{ id := nextId, name := sanitizeHtml (trimModel name)
           email := trimModel email
           passwordHash := hashPassword password
           role := roleOrDefault role, bio := ""
           isEmailVerified := false
           emailVerificationToken := some vt
           passwordResetToken := none, passwordResetExpires := none
           createdAt := t0 }] := by
    simp [registerEndpoint, hval, register, hfresh, generateToken]
  rw [h2] at hu
  have huu : u =
      { id := nextId, name := sanitizeHtml (trimModel name)
        email := trimModel email
        passwordHash := hashPassword password
        role := roleOrDefault role, bio := ""
        isEmailVerified := false
        emailVerificationToken := some vt
        passwordResetToken := none, passwordResetExpires := none
        createdAt := t0 } := by
    have h3 := List.append_cancel_left hu
    simp at h3
    exact h3.symm
  subst huu
  refine ⟨rfl, ?_, ?_, ?_⟩
  · simp [registerEndpoint, hval, register, hfresh, generateToken]
  · have hlv : loginValidationErrors email password = [] := by
      simp [loginValidationErrors, hem, hpw]
    have hfind : findByEmail
        (store ++
          [{ id := nextId, name := sanitizeHtml (trimModel name)
             email := trimModel email
             passwordHash := hashPassword password
             role := roleOrDefault role, bio := ""
             isEmailVerified := false
             emailVerificationToken := some vt
             passwordResetToken := none, passwordResetExpires := none
             createdAt := t0 }]) (trimModel email) =
        some
          { id := nextId, name := sanitizeHtml (trimModel name)
            email := trimModel email
            passwordHash := hashPassword password
            role := roleOrDefault role, bio := ""
            isEmailVerified := false
            emailVerificationToken := some vt
            passwordResetToken := none, passwordResetExpires := none
            createdAt := t0 } := by
      unfold findByEmail at hfresh ⊢
      rw [find?_append_none hfresh]
      simp [List.find?, emailMatches]
    simp [loginEndpoint, hlv, login, hem, hpw, hfind, comparePassword,
      generateToken]
  · have hfid : findById
        (store ++
          [{ id := nextId, name := sanitizeHtml (trimModel name)
             email := trimModel email
             passwordHash := hashPassword password
             role := roleOrDefault role, bio := ""
             isEmailVerified := false
             emailVerificationToken := some vt
             passwordResetToken := none, passwordResetExpires := none
             createdAt := t0 }]) nextId =
        some
          { id := nextId, name := sanitizeHtml (trimModel name)
            email := trimModel email
            passwordHash := hashPassword password
            role := roleOrDefault role, bio := ""
            isEmailVerified := false
            emailVerificationToken := some vt
            passwordResetToken := none, passwordResetExpires := none
            createdAt := t0 } := by
      unfold findById
      rw [find?_append_none (List.find?_eq_none.2
        (fun v hv => by simpa using hid v hv))]
      simp [List.find?]
    have hver : verifyToken (some s)
        (SessionToken.signed nextId (t1 + dayMs)
          (jwtSignature s nextId (t1 + dayMs))) t2 = Except.ok nextId := by
      simp [verifyToken, Nat.not_le_of_lt ht]
    simp [protect, hver, hfid]

/-- Witness for C6: from the empty store, register alice, log in with
the same credentials, and resolve the login token at time 20 (within
its validity) to the created record with id 1. -/
theorem register_login_identity_witness :
    aliceRegistered.id = 1 ∧
    (registerEndpoint [] 1 "vt" (some "k") 0 "Alice" "alice@example.com"
        "Secret123" none).1 =
      ApiResponse.authSuccess 201
        (SessionToken.signed 1 (0 + dayMs) (jwtSignature "k" 1 (0 + dayMs)))
        (publicUser aliceRegistered) ∧
    loginEndpoint ([] ++ [aliceRegistered]) (some "k") 10
        "alice@example.com" "Secret123" =
      ApiResponse.authSuccess 200
        (SessionToken.signed 1 (10 + dayMs) (jwtSignature "k" 1 (10 + dayMs)))
        (publicUser aliceRegistered) ∧
    protect ([] ++ [aliceRegistered]) (some "k") 20
        (some (SessionToken.signed 1 (10 + dayMs)
          (jwtSignature "k" 1 (10 + dayMs)))) =
      ProtectResult.authorized aliceRegistered :=
  register_login_identity_roundtrip [] 1 "vt" "k" 0 10 20 "Alice"
    "alice@example.com" "Secret123" none (by decide) (by decide)
    (by decide) (by decide) aliceRegistered (by decide)

end StudentConnectHub
